import Mathlib

/-!
Verification development for the native-hook control-plane bridge
(`src/native_hook/main_hook.py`).  The Python module is shallowly embedded:
Python JSON values become the `Json` inductive, the module-level mutable
globals (history deques, connection set, watchdog observer, watch-registration
dict) become the `HookState` record, and every external collaborator (AppKit,
HIServices, subprocess, watchdog, the wall clock, uuid) is supplied as an
oracle record `Ext` whose fields hold the result that one call to the
collaborator would return.  All definitions are computable and follow the
source line by line; source line numbers are cited in comments.
-/

namespace CTW

/-- Python/JSON values as handled by `json.loads` / `json.dumps`
(`main_hook.py` passes them around untyped).  `null` also stands for
Python `None`. -/
inductive Json : Type where
  | null : Json
  | bool (b : Bool) : Json
  | num (n : Int) : Json
  | str (s : String) : Json
  | arr (elems : List Json) : Json
  | obj (fields : List (String × Json)) : Json

/-- Python truthiness (`if x:`) for the embedded values. -/
def pyTruthy : Json → Bool
  | .null => false
  | .bool b => b
  | .num n => if n = 0 then false else true
  | .str s => if s = "" then false else true
  | .arr xs => !xs.isEmpty
  | .obj fs => !fs.isEmpty

/-- Association-list lookup modelling Python `dict` key access
(first binding wins; Python dicts cannot hold duplicate keys). -/
def lookupKey (fs : List (String × Json)) (k : String) : Option Json :=
  match fs with
  | [] => none
  | (k', v) :: rest => if k' = k then some v else lookupKey rest k

/-- Python `d.get(k)` on a value known to be a dict: `None` when absent. -/
def dictGet (fs : List (String × Json)) (k : String) : Json :=
  (lookupKey fs k).getD .null

/-- Python `payload.get(k)` where `payload` may be any value: raises
`AttributeError` (modelled as `Except.error`) unless it is a dict. -/
def pyGet (payload : Json) (k : String) : Except String Json :=
  match payload with
  | .obj fs => .ok (dictGet fs k)
  | _ => .error ("AttributeError: object has no attribute " ++ "\x27get\x27 (key " ++ k ++ ")")

/-- Python `payload.get(k, deflt)` with the same raising behaviour. -/
def pyGetD (payload : Json) (k : String) (deflt : Json) : Except String Json :=
  match payload with
  | .obj fs => .ok ((lookupKey fs k).getD deflt)
  | _ => .error ("AttributeError: object has no attribute " ++ "\x27get\x27 (key " ++ k ++ ")")

/-- Test for `Json.null` as a Boolean (Python `x is None`). -/
def jIsNull : Json → Bool
  | .null => true
  | _ => false

/-- Does the value equal the given Python string (`x == "s"`)? -/
def isCmdStr (c : Json) (s : String) : Bool :=
  match c with
  | .str t => t == s
  | _ => false

/-- Python `x or deflt` for an optional string (empty string is falsy). -/
def pyOrS (x : Option String) (deflt : String) : String :=
  match x with
  | some s => if s = "" then deflt else s
  | none => deflt

/-- An optional string rendered as a JSON value (`None` becomes `null`). -/
def optStrJson : Option String → Json
  | some s => .str s
  | none => .null

/-- Python `s[:n]`. -/
def strTake (n : Nat) (s : String) : String :=
  String.mk (s.data.take n)

/-- Python `sep.join(parts)`. -/
def sepJoin (sep : String) : List String → String
  | [] => ""
  | [p] => p
  | p :: rest => p ++ sep ++ sepJoin sep rest

/-- Rendering used by Python f-strings (`f"{value}"`): `str()` of the value.
`None` prints as `None`, booleans capitalised, strings verbatim; container
rendering is approximated by a bracketed form (no claim depends on it). -/
def pyFStr : Json → String
  | .null => "None"
  | .bool true => "True"
  | .bool false => "False"
  | .num n => toString n
  | .str s => s
  | .arr _ => "[...]"
  | .obj _ => "\x7b...\x7d"

/-! ### History rings (`main_hook.py` lines 220-233)

The three caches are `collections.deque(maxlen=MAX_HISTORY_ITEMS)` with
`MAX_HISTORY_ITEMS = 10`, storing `(record, timestamp)` pairs and iterated
oldest first.  Appending to a full deque evicts the leftmost (oldest) item. -/

def MAX_HISTORY_ITEMS : Nat := 10

/-- One element of a history deque: `(record, timestamp)`. -/
abbrev HistItem := Json × Nat

/-- Model of `deque.append` with `maxlen = 10`: drop the oldest entry when full. -/
def dequePush10 (dq : List HistItem) (x : HistItem) : List HistItem :=
  if dq.length < MAX_HISTORY_ITEMS then dq ++ [x] else dq.tail ++ [x]

/-! ### Accessibility search engine (`_find_ax_element_recursive`, lines 169-218)

An `AXElem` records what the three `AXUIElementCopyAttributeValue` reads on a
node would return: `some s` stands for error code 0 with a string value, and
`none` for a non-zero error code, a `None` value, or a non-string value (the
source treats all of those as a failed attribute read).  The `AXChildren`
read is a list of possibly-`None` child references (`none` entries model the
`if child_element_ref:` skip at line 208); an errored/absent/falsy children
attribute is the empty list, and the single-child `elif` at lines 213-216 is
the singleton list, which the loop treats identically. -/

inductive AXElem : Type where
  | node (role : Option String) (title : Option String) (desc : Option String)
      (children : List (Option AXElem)) : AXElem

/-- Lower-case a string character-wise (Python `str.lower()`). -/
def lowerChars (s : String) : List Char :=
  s.data.map Char.toLower

/-- Is `needle` a leading segment of `hay`? -/
def charsStartsWith : List Char → List Char → Bool
  | [], _ => true
  | _ :: _, [] => false
  | a :: as, b :: bs => a = b && charsStartsWith as bs

/-- Python `needle in hay` substring containment on character lists. -/
def charsContains (needle : List Char) : List Char → Bool
  | [] => charsStartsWith needle []
  | b :: bs => charsStartsWith needle (b :: bs) || charsContains needle bs

/-- Line 192/197: `identifier_text.lower() in attr.lower()`, guarded by the
truthiness of the attribute value (`title_ref and isinstance(title_ref, str)`:
an empty string never matches). -/
def attrTextMatch (idText : String) (attr : Option String) : Bool :=
  match attr with
  | some s => if s = "" then false else charsContains (lowerChars idText) (lowerChars s)
  | none => false

/-- Line 185: `target_role and (err_role != 0 or role_ref != target_role)`.
`true` means the node itself cannot match.  A falsy (`""`) target role
disables the filter, exactly as Python truthiness does. -/
def roleGateBlocks (tRole role : Option String) : Bool :=
  match tRole with
  | none => false
  | some r =>
    if r = "" then false
    else
      match role with
      | some rv => if rv = r then false else true
      | none => true

/-- Does the node itself match (lines 185-199): the role gate must pass and
then title, else description, must contain the identifier text. -/
def axSelfMatches (idText : String) (tRole role title desc : Option String) : Bool :=
  if roleGateBlocks tRole role then false
  else attrTextMatch idText title || attrTextMatch idText desc

mutual

/-- Model of `_find_ax_element_recursive(current_element, identifier_text, target_role)`
(lines 169-218): return the element itself on a self-match, otherwise the
first match found among the children in index order. -/
def findAx (idText : String) (tRole : Option String) : AXElem → Option AXElem
  | AXElem.node role title desc children =>
    if axSelfMatches idText tRole role title desc then
      some (AXElem.node role title desc children)
    else
      findAxList idText tRole children

/-- The child loop at lines 206-211: skip `None` entries, return the first
successful recursive result, short-circuiting the rest. -/
def findAxList (idText : String) (tRole : Option String) : List (Option AXElem) → Option AXElem
  | [] => none
  | none :: rest => findAxList idText tRole rest
  | some c :: rest =>
    match findAx idText tRole c with
    | some f => some f
    | none => findAxList idText tRole rest

end

/-- The `AXRole` read of an element. -/
def elemRole : AXElem → Option String
  | AXElem.node role _ _ _ => role

/-- The self-match test of an element as a whole. -/
def matchesSelfOf (idText : String) (tRole : Option String) : AXElem → Bool
  | AXElem.node role title desc _ => axSelfMatches idText tRole role title desc

/-! ### Server state and external-collaborator oracle -/

/-- A connected websocket client (`connected_clients`, line 233), identified
abstractly. -/
abbrev Client := Nat

/-- The watchdog observer (`global_observer`, line 236): absent, or an
`Observer` object carrying its scheduled watch paths (its `emitters`,
consulted at lines 1071-1076) and whether `is_alive()`. -/
inductive ObserverSt : Type where
  | noObs : ObserverSt
  | obs (scheduled : List String) (alive : Bool) : ObserverSt

/-- One value of `monitored_paths_details` (line 1082):
`{"recursive": ..., "alias": ...}`. -/
structure WatchDetails where
  recursive : Json
  aliasVal : Json

/-- The module-level mutable state of `main_hook.py`: the three history
deques (lines 223-230), the connected-clients set (line 233), the watchdog
observer and the watch-registration dict (lines 236-237). -/
structure HookState where
  active_app_history : List HistItem
  file_event_history : List HistItem
  hook_executed_command_history : List HistItem
  connected_clients : List Client
  observer : ObserverSt
  monitored_paths_details : List (String × WatchDetails)

/-- Outcome of the `subprocess.run` call in `execute_shell_command_sync`
(lines 610-631): normal completion with an exit code and captured output,
`subprocess.TimeoutExpired`, or any other exception. -/
inductive ShellOutcome : Type where
  | completed (rc : Int) (out err : String) : ShellOutcome
  | timeout : ShellOutcome
  | exn (m : String) : ShellOutcome

/-- Outcome of the `osascript` call in `quit_application_applescript`
(lines 117-163). -/
inductive QuitOutcome : Type where
  | succeeded : QuitOutcome
  | failed (rc : Int) (stderrMsg : String) : QuitOutcome
  | timedOut : QuitOutcome
  | exn (m : String) : QuitOutcome

/-- Outcome of the app-activation attempt in `type_in_target_input`
(lines 791-809): activated, `activateWithOptions_` returned false, no
running app with that bundle id, or an exception (caught at line 807). -/
inductive ActivateOutcome : Type where
  | activated : ActivateOutcome
  | activateFailed : ActivateOutcome
  | notFound : ActivateOutcome
  | exnA (m : String) : ActivateOutcome

/-- How the `click_button_in_target` handler obtains the application element
to search (lines 887-938): a concrete element tree, a failing
`AXFocusedApplication` read (error code), a successful read returning no
element, or no `AXUIElementCreateSystemWide` available. -/
inductive AppElemOutcome : Type where
  | elem (t : AXElem) : AppElemOutcome
  | axFails (code : Int) : AppElemOutcome
  | noFocusedApp : AppElemOutcome
  | noSystemWide : AppElemOutcome

/-- Oracle for everything outside the core: feature flags fixed at import
time (lines 23-50), the wall clock and uuid generator, and the result each
external collaborator call would return during the handling of one message
or one filesystem event. -/
structure Ext where
  appkitLoaded : Bool
  axEnabled : Bool
  macosEnabled : Bool
  now : Nat
  uuid : String
  activeAppInfo : List (String × Json)
  captureResult : Option String × Option String
  keystrokesResult : Bool × Option String
  focusedResult : Option String × Option String
  activateOutcome : ActivateOutcome
  clickAppElem : AppElemOutcome
  clickEnabled : Int × Json
  clickPress : Int
  shellOutcome : ShellOutcome
  moveMouseResult : Bool × Option String
  mouseClickResult : Bool × Option String
  pathExists : String → Bool
  scheduleFails : String → Bool
  scheduleErrMsg : String → String
  observerStartOk : Bool
  observerStartErr : String
  terminalScriptResult : Bool × Option String
  quitOutcome : QuitOutcome

/-- Line 167. -/
def AX_API_DISABLED_ERROR_MSG : String :=
  "Accessibility API is disabled (AXErrorAPIDisabled -25201). Please check System Settings > Privacy & Security > Accessibility. Ensure the application that launched this Python script (e.g., Terminal, your IDE like VS Code/Cursor, or the specific Python interpreter if run directly) has permissions. You may need to add the exact Python executable (e.g., /usr/bin/python3, /opt/homebrew/bin/python3.12, or the one inside your .venv) to the list."

/-! ### Outbound envelopes (lines 313-332 and 710-718) -/

/-- A response envelope as built by `create_response` / `create_error_response`
or the inline `pong` dict.  `payload` is present exactly on the
`create_response`/`pong` shape and `error_message` exactly on the
`create_error_response` shape, mirroring which keys each builder emits. -/
structure Response where
  id : Json
  rtype : String
  original_command : Json
  status : String
  received_payload : Json
  payload : Option Json
  error_message : Option String

/-- Model of `create_response` (lines 314-322). -/
def create_response (mid cmdJ recvPayload : Json) (status : String) (payloadData : Json) : Response :=
  { id := mid
    rtype := pyFStr cmdJ ++ "_response"
    original_command := cmdJ
    status := status
    received_payload := recvPayload
    payload := some payloadData
    error_message := none }

/-- Model of `create_error_response` (lines 324-332): `status` is `"error"`, the
`error_message` key is present and there is no `payload` key. -/
def create_error_response (mid cmdJ recvPayload : Json) (emsg : String) : Response :=
  { id := mid
    rtype := pyFStr cmdJ ++ "_response"
    original_command := cmdJ
    status := "error"
    received_payload := recvPayload
    payload := none
    error_message := some emsg }

/-- The inline `pong` envelope (lines 710-718). -/
def pongResponse (mid cmdJ payload : Json) : Response :=
  { id := mid
    rtype := "pong"
    original_command := cmdJ
    status := "success"
    received_payload := payload
    payload := some (.str "Hello from Python Hook!")
    error_message := none }

/-- The centralized response-data fix-up (lines 1231-1234): when the status
is `"error"` and `error_msg` is truthy, the error text is inserted INTO the
response data (which becomes the `payload` of a `create_response` envelope)
under `"error_message"`, unless the key is already there. -/
def centralAugment (status : String) (errMsg : Option String) (rdata : List (String × Json)) :
    List (String × Json) :=
  match errMsg with
  | some m =>
    if status = "error" then
      if m = "" then rdata
      else if (lookupKey rdata "error_message").isSome then rdata
      else rdata ++ [("error_message", .str m)]
    else rdata
  | none => rdata

/-! ### Collaborator wrappers defined in `main_hook.py` itself -/

/-- Model of `get_macos_active_window_info` (lines 335-384): without AppKit it
returns placeholder values and records nothing; with AppKit it returns the
externally-queried info dict and appends it to `active_app_history`. -/
def get_macos_active_window_info (ext : Ext) (st : HookState) :
    List (String × Json) × HookState :=
  if !ext.appkitLoaded then
    ([("application_name", .str "N/A (macOS AppKit not available)"),
      ("window_title", .str "N/A"), ("bundle_id", .str "N/A"), ("pid", .num (-1))], st)
  else
    (ext.activeAppInfo,
     { st with active_app_history :=
        dequePush10 st.active_app_history (.obj ext.activeAppInfo, ext.now) })

/-- The history record written by `execute_shell_command_sync` (line 633). -/
def shellHistEntry (cmdJ : Json) : Json :=
  .obj [("command_type", .str "shell_sync"), ("command", cmdJ)]

/-- Model of `execute_shell_command_sync` (lines 603-636): runs the command with a
30-second timeout, never raises, and in its `finally` block appends exactly
one `(record, timestamp)` pair to `hook_executed_command_history` on every
path.  Returns `(success, stdout, stderr, error_msg)`. -/
def execute_shell_command_sync (ext : Ext) (cmdJ : Json) (st : HookState) :
    (Bool × Json × Json × Option String) × HookState :=
  let res : Bool × Json × Json × Option String :=
    match ext.shellOutcome with
    | .completed rc out err =>
      if rc = 0 then (true, .str out, .str err, none)
      else (false, .str out, .str err, some err)
    | .timeout => (false, .null, .null, some "Command timed out after 30 seconds.")
    | .exn m => (false, .null, .null, some m)
  (res,
   { st with hook_executed_command_history :=
      dequePush10 st.hook_executed_command_history (shellHistEntry cmdJ, ext.now) })

/-- Model of `simulate_keystrokes_applescript` (lines 430-459): the whole body is in a
`try`, so a non-string argument makes it return `(False, str(e))` rather than
raise; for a string it reports the external `osascript` outcome. -/
def simulate_keystrokes_applescript (ext : Ext) (textJ : Json) : Bool × Option String :=
  match textJ with
  | .str _ => ext.keystrokesResult
  | _ => (false, some "AttributeError: replace")

/-- Model of `perform_mouse_click` (lines 648-691): validates the button, then the
click kind, then posts the events (any exception is caught and reported). -/
def perform_mouse_click (ext : Ext) (button clickType : Json) : Bool × Option String :=
  if !(isCmdStr button "left") && !(isCmdStr button "right") then
    (false, some "Invalid mouse button specified")
  else if !(isCmdStr clickType "click") && !(isCmdStr clickType "double_click") then
    (false, some "Invalid click type specified")
  else ext.mouseClickResult

/-- The bundle-id sanitisation at line 112. -/
def sanitizeBundleId (b : String) : String :=
  (b.replace "\\\"" "\\\\\\\"").replace "\x27" "\\\\\x27"

/-- Model of `quit_application_applescript` (lines 105-163).  A falsy bundle id is
rejected; the `.replace` on a truthy non-string raises (it sits outside the
`try`); otherwise the `osascript` outcome decides the result and every
outcome appends one record to `hook_executed_command_history`. -/
def quit_application_applescript (ext : Ext) (bundleJ : Json) (st : HookState) :
    Except String ((Bool × Option String) × HookState) :=
  if !(pyTruthy bundleJ) then
    .ok ((false, some "Bundle ID is required to quit an application."), st)
  else
    match bundleJ with
    | .str b =>
      let sb := sanitizeBundleId b
      let mkEntry (status : String) (emsg : Option String) : Json :=
        .obj ([("command_type", .str "quit_application_applescript"),
               ("bundle_id", .str sb), ("status", .str status)]
              ++ (match emsg with
                  | some m => [("error_message", .str m)]
                  | none => []))
      let push (e : Json) : HookState :=
        { st with hook_executed_command_history :=
            dequePush10 st.hook_executed_command_history (e, ext.now) }
      match ext.quitOutcome with
      | .succeeded => .ok ((true, none), push (mkEntry "success" none))
      | .failed rc m =>
        let emsg := "AppleScript to quit \x27" ++ sb ++ "\x27 failed. Return code: "
          ++ toString rc ++ ". Stderr: " ++ m
        .ok ((false, some emsg), push (mkEntry "error" (some emsg)))
      | .timedOut =>
        let emsg := "AppleScript command to quit \x27" ++ sb ++ "\x27 timed out after 10 seconds."
        .ok ((false, some emsg), push (mkEntry "error" (some emsg)))
      | .exn m => .ok ((false, some m), push (mkEntry "error" (some m)))
    | _ => .error "AttributeError: replace"

/-- The AppleScript assembled by `run_command_in_new_terminal_tab`
(lines 77-99), given the already-sanitised pieces. -/
def terminalScript (cmd : String) (tabNamePart : List String) (activate : Bool) : String :=
  sepJoin "\n"
    ((if activate then ["tell application \"Terminal\" to activate"] else [])
     ++ ["tell application \"System Events\" to tell process \"Terminal\" to keystroke \"t\" using command down",
         "delay 0.5",
         "tell application \"Terminal\" to do script \""
           ++ ((cmd.replace "\\" "\\\\").replace "\"" "\\\"")
           ++ "\" in selected tab of front window"]
     ++ tabNamePart)

/-- Model of `run_command_in_new_terminal_tab` (lines 75-103): builds the script
(raising on a truthy non-string tab name, line 95), appends one record to
`hook_executed_command_history` (lines 101-102), then reports the external
`osascript` outcome. -/
def run_command_in_new_terminal_tab (ext : Ext) (cmd : String) (tabNameJ activateJ : Json)
    (st : HookState) : Except String ((Bool × Option String) × HookState) := do
  let tabPart : List String ←
    match tabNameJ with
    | .str t =>
      pure (if t = "" then [] else
        ["tell application \"Terminal\" to set custom title of selected tab of front window to \""
          ++ ((t.replace "\\" "\\\\").replace "\"" "\\\"") ++ "\""])
    | j => if pyTruthy j then .error "AttributeError: replace" else pure []
  let fullScript := terminalScript cmd tabPart (pyTruthy activateJ)
  let entry : Json := .obj
    [("command_type", .str "applescript_terminal_new_tab"),
     ("command", .str cmd), ("tab_name", tabNameJ),
     ("full_script_approx", .str (strTake 200 fullScript))]
  let st' := { st with hook_executed_command_history := dequePush10 st.hook_executed_command_history (entry, ext.now) }
  pure (ext.terminalScriptResult, st')

/-! ### Filesystem event bridge (`AsyncFileSystemEventHandler`, lines 239-311) -/

/-- The kind of watchdog event delivered to the handler. -/
inductive FsEventKind : Type where
  | created : FsEventKind
  | deleted : FsEventKind
  | modified : FsEventKind
  | moved : FsEventKind

/-- A filesystem change event as seen by the `on_*` callbacks.  `dest` is the
`dest_path` passed by `on_moved` (and `none` for the other callbacks, which
never pass one). -/
structure FsEvent : Type where
  kind : FsEventKind
  src : String
  dest : Option String
  isDir : Bool

/-- The `dest_path` guard `if dest_path:` (lines 255-256 and 285-286):
present and non-empty. -/
def destFields (key : String) (dest : Option String) : List (String × Json) :=
  match dest with
  | some d => if d = "" then [] else [(key, .str d)]
  | none => []

/-- Model of `send_event_to_clients` (lines 244-287).  With no connected clients it
returns at once — neither a broadcast nor a history insertion happens.
Otherwise it schedules one send of the broadcast envelope to a snapshot of
every registered client (delivery per client is best effort) and appends one
record to `file_event_history`.  The result is the list of (client, envelope)
sends scheduled plus the updated state. -/
def send_event_to_clients (ext : Ext) (st : HookState) (etype : String) (src : String)
    (dest : Option String) (isDir : Bool) : List (Client × Json) × HookState :=
  if st.connected_clients.isEmpty then ([], st)
  else
    let msgPayload : Json := .obj
      ([("event_type", .str etype), ("src_path", .str src),
        ("is_directory", .bool isDir), ("timestamp", .num (Int.ofNat ext.now))]
       ++ destFields "dest_path" dest)
    let msg : Json := .obj
      [("id", .str ("fs_event_" ++ ext.uuid)),
       ("type", .str "file_system_event"),
       ("status", .str "success"),
       ("payload", msgPayload)]
    let histEntry : Json := .obj
      ([("event_type", .str etype), ("src_path", .str src), ("is_directory", .bool isDir)]
       ++ destFields "dest_path" dest)
    (st.connected_clients.map (fun c => (c, msg)),
     { st with file_event_history := dequePush10 st.file_event_history (histEntry, ext.now) })

/-- The four `on_*` callbacks (lines 289-311).  `on_modified` forwards only
non-directory events (lines 301-304); the others always forward. -/
def fsDispatch (ext : Ext) (st : HookState) (ev : FsEvent) : List (Client × Json) × HookState :=
  match ev.kind with
  | .created => send_event_to_clients ext st "created" ev.src none ev.isDir
  | .deleted => send_event_to_clients ext st "deleted" ev.src none ev.isDir
  | .modified =>
    if ev.isDir then ([], st)
    else send_event_to_clients ext st "modified" ev.src none ev.isDir
  | .moved => send_event_to_clients ext st "moved" ev.src ev.dest ev.isDir

/-- The wire name of each event kind (`on_created` sends `"created"`, and so
on). -/
def eventTypeName : FsEventKind → String
  | .created => "created"
  | .deleted => "deleted"
  | .modified => "modified"
  | .moved => "moved"

/-- Key lookup on a JSON object value (used only to state properties of the
envelopes built above). -/
def jObjGet (j : Json) (k : String) : Option Json :=
  match j with
  | .obj fs => lookupKey fs k
  | _ => none

/-! ### Filesystem watch manager (`start_fs_monitoring` lines 1046-1118,
`stop_fs_monitoring` lines 1120-1169) -/

/-- Python dict assignment `m[k] = v`: overwrite in place or append. -/
def updateAssoc (m : List (String × WatchDetails)) (k : String) (v : WatchDetails) :
    List (String × WatchDetails) :=
  match m with
  | [] => [(k, v)]
  | (k', v') :: rest =>
    if k' = k then (k, v) :: rest else (k', v') :: updateAssoc rest k v

/-- Check `all(isinstance(p, str) for p in paths)` plus extraction (line 1052). -/
def jStrList : List Json → Option (List String)
  | [] => some []
  | .str s :: rest => (jStrList rest).map (s :: ·)
  | _ => none

/-- A JSON value as a list of strings, when it is one. -/
def asStrList : Json → Option (List String)
  | .arr es => jStrList es
  | _ => none

/-- Result of the per-path registration loop. -/
structure LoopRes where
  sched : List String
  mon : List (String × WatchDetails)
  errors : List String
  startedAny : Bool

/-- The per-path loop of `start_fs_monitoring` (lines 1059-1088): a
nonexistent path is a per-path error; a path already scheduled on the
observer is skipped; a `schedule` exception is a per-path error; otherwise
the path is scheduled and registered in `monitored_paths_details`. -/
def startLoop (ext : Ext) (recJ aliasJ : Json) :
    List String → List String → List (String × WatchDetails) → List String → Bool → LoopRes
  | [], sched, mon, errors, started => ⟨sched, mon, errors, started⟩
  | p :: ps, sched, mon, errors, started =>
    if !(ext.pathExists p) then
      startLoop ext recJ aliasJ ps sched mon (errors ++ ["Path does not exist: " ++ p]) started
    else if sched.contains p then
      startLoop ext recJ aliasJ ps sched mon errors started
    else if ext.scheduleFails p then
      startLoop ext recJ aliasJ ps sched mon
        (errors ++ ["Error scheduling watch for " ++ p ++ ": " ++ ext.scheduleErrMsg p]) started
    else
      startLoop ext recJ aliasJ ps (sched ++ [p]) (updateAssoc mon p ⟨recJ, aliasJ⟩) errors true

/-- The body of `start_fs_monitoring` after payload validation
(lines 1053-1111): lazily create the observer, run the registration loop,
start the observer if something new was scheduled and it is not yet alive —
and on a start failure discard the observer handle (lines 1098-1103) while
`monitored_paths_details` keeps the entries the loop added — then build the
response.  Returns `(state, status, error_msg, response_data)`. -/
def startCore (ext : Ext) (st : HookState) (paths : List String) (recJ aliasJ : Json) :
    HookState × String × Option String × List (String × Json) :=
  let sched0 := match st.observer with | .noObs => [] | .obs s _ => s
  let alive0 := match st.observer with | .noObs => false | .obs _ a => a
  let L := startLoop ext recJ aliasJ paths sched0 st.monitored_paths_details [] false
  let step : ObserverSt × List String × Bool :=
    if L.startedAny && !alive0 then
      if ext.observerStartOk then (ObserverSt.obs L.sched true, L.errors, true)
      else (ObserverSt.noObs, L.errors ++ ["Error starting observer: " ++ ext.observerStartErr], false)
    else (ObserverSt.obs L.sched alive0, L.errors, L.startedAny)
  let st' : HookState := { st with observer := step.1, monitored_paths_details := L.mon }
  if !step.2.1.isEmpty then
    (st', "error", none,
     [("message", .str ("Errors encountered: " ++ sepJoin "; " step.2.1)),
      ("stopped_paths", .arr (L.mon.map (fun kv => Json.str kv.1)))])
  else if !step.2.2 && L.mon.isEmpty then
    (st', "success", none,
     [("message", .str "No new paths were monitored (possibly all already watched or invalid paths).")])
  else
    (st', "success", none,
     [("message", .str "File system monitoring updated."),
      ("monitored_paths", .arr (L.mon.map (fun kv => Json.str kv.1)))])

/-- The `start_fs_monitoring` payload validation (lines 1047-1052 and
1112-1118) wrapped around `startCore`. -/
def startBranch (ext : Ext) (st : HookState) (payload : Json) :
    HookState × String × Option String × List (String × Json) :=
  match payload with
  | .obj fs =>
    if (lookupKey fs "paths").isSome then
      match asStrList (dictGet fs "paths") with
      | some ps =>
        startCore ext st ps ((lookupKey fs "recursive").getD (.bool true))
          ((lookupKey fs "alias").getD .null)
      | none =>
        (st, "error", some "Invalid \x27paths\x27 in payload, expected a list of strings.", [])
    else
      (st, "error",
       some "Invalid payload for start_fs_monitoring. Expected \x7bpaths: [string], recursive?: boolean, alias?: string\x7d.", [])
  | _ =>
    (st, "error",
     some "Invalid payload for start_fs_monitoring. Expected \x7bpaths: [string], recursive?: boolean, alias?: string\x7d.", [])

/-- Stop-everything helper of `stop_fs_monitoring` (lines 1138-1150): stop
and discard the observer, report the previously monitored paths and clear
the registrations. -/
def stopAllWatches (st : HookState) (msg : String) : HookState × List (String × Json) :=
  ({ st with observer := ObserverSt.noObs, monitored_paths_details := [] },
   [("message", .str msg),
    ("stopped_paths", .arr (st.monitored_paths_details.map (fun kv => Json.str kv.1)))])

/-- The `stop_fs_monitoring` branch (lines 1120-1169).  With a live observer:
a non-empty `paths` list stops ALL monitoring (the documented
simplification, lines 1126-1143), a falsy `paths` (absent, null, or empty
list) also stops all monitoring, and a truthy non-list leaves everything
running.  An observer that exists but is not alive is cleaned up; with no
observer the state is untouched.  The branch never sets an error status. -/
def stopBranch (st : HookState) (payload : Json) : HookState × List (String × Json) :=
  let pathsJ : Json := match payload with | .obj fs => dictGet fs "paths" | _ => .null
  match st.observer with
  | .obs _ true =>
    match pathsJ with
    | .arr ps =>
      if !ps.isEmpty then
        stopAllWatches st
          ("All file system monitoring stopped (as specific paths " ++ pyFStr pathsJ
            ++ " were requested to stop).")
      else
        stopAllWatches st "All file system monitoring stopped."
    | _ =>
      if pyTruthy pathsJ then
        (st, [("message", .str "If \x27paths\x27 is provided for stop_fs_monitoring, it must be a list of strings.")])
      else
        stopAllWatches st "All file system monitoring stopped."
  | .obs _ false =>
    ({ st with observer := ObserverSt.noObs, monitored_paths_details := [] },
     [("message", .str "File system observer was not running. State cleared."),
      ("stopped_paths", .arr [])])
  | .noObs =>
    (st, [("message", .str "File system monitoring was not active."),
          ("stopped_paths", .arr [])])

/-! ### Command router (`handle_message`, lines 693-1251) -/

/-- Model of `format_history` inside the `get_hook_context_history` branch
(lines 1194-1195): the deque contents in iteration order (oldest first),
each `(item, timestamp)` pair as a dict; the deques are not mutated. -/
def formatHistory (dq : List HistItem) : Json :=
  .arr (dq.map (fun it => Json.obj [("item", it.1), ("timestamp", .num (Int.ofNat it.2))]))

/-- The `click_button_in_target` branch (lines 831-988).  The activation
attempt (lines 842-877) only logs — its failures deliberately do not set
`error_msg` — so it is not modelled.  The accessibility phase either obtains
an application element to search (oracle `clickAppElem`) and then runs
`_find_ax_element_recursive` — the very `findAx` defined above — with role
`"AXButton"`, or records the failure message.  A truthy non-string
identifier makes `identifier_text.lower()` raise inside the search, caught
by the `except` at line 971.  Returns `(status, error_msg, response_data)`;
the branch never touches the server state. -/
def clickButtonBranch (ext : Ext) (payload : Json) :
    Except String (String × Option String × List (String × Json)) := do
  let buttonIdentifier ← pyGet payload "button_identifier"
  let _targetBundle ← pyGet payload "target_app_bundle_id"
  if !(ext.axEnabled && ext.appkitLoaded) then
    pure ("error", some "Accessibility or AppKit features are not available on the hook for targeted click.", [])
  else if !(pyTruthy buttonIdentifier) then
    pure ("error", some "Missing \x27button_identifier\x27 in payload for click_button_in_target", [])
  else
    match ext.clickAppElem with
    | .elem t =>
      match buttonIdentifier with
      | .str s =>
        match findAx s (some "AXButton") t with
        | some _btn =>
          -- lines 949-966: AXEnabled check, then AXPress
          let errEnabled := ext.clickEnabled.1
          let enabledVal := ext.clickEnabled.2
          if errEnabled ≠ 0 then
            pure ("error",
              some (if errEnabled = -25201 then AX_API_DISABLED_ERROR_MSG
                else "Could not determine if button \x27" ++ s ++ "\x27 is enabled (Error: "
                  ++ toString errEnabled ++ "). Click aborted."), [])
          else if !(pyTruthy enabledVal) then
            pure ("error", some ("Button \x27" ++ s ++ "\x27 was found but is disabled. Click aborted."), [])
          else if ext.clickPress = 0 then
            pure ("success", none,
              [("message", .str ("Successfully clicked button \x27" ++ s ++ "\x27."))])
          else
            pure ("error",
              some (if ext.clickPress = -25201 then AX_API_DISABLED_ERROR_MSG
                else "Found button \x27" ++ s ++ "\x27 but failed to perform press action (Error code: "
                  ++ toString ext.clickPress ++ ")."), [])
        | none =>
          pure ("error",
            some ("Button with identifier \x27" ++ s
              ++ "\x27 and role \x27AXButton\x27 not found within the application."), [])
      | _ =>
        pure ("error", some "Accessibility interaction error for click: AttributeError: lower", [])
    | .axFails code =>
      pure ("error",
        some (if code = -25201 then AX_API_DISABLED_ERROR_MSG
          else "HIServices.AXUIElementCopyAttributeValue failed for \x27AXFocusedApplication\x27. Error code: "
            ++ toString code), [])
    | .noFocusedApp =>
      pure ("error", some "Could not get focused application to search for the button (system-wide).", [])
    | .noSystemWide =>
      pure ("error", some "AXUIElementCreateSystemWide not found; cannot get focused application for button search.", [])

/-- The non-`ping` command dispatch of `handle_message` (lines 722-1227),
branch by branch in source order.  Returns
`(status, error_msg, response_data, state)` for the centralized response
builder, or `Except.error` when the Python branch would raise out to the
handler at line 1245 (which in every such branch happens before any state
mutation). -/
def runBranch (ext : Ext) (st : HookState) (cmd payload : Json) :
    Except String (String × Option String × List (String × Json) × HookState) :=
  if isCmdStr cmd "get_active_application_info" then
    -- lines 722-729
    let r := get_macos_active_window_info ext st
    if ext.appkitLoaded then .ok ("success", none, r.1, r.2)
    else .ok ("error", some "macOS features (AppKit) are disabled.", r.1, r.2)
  else if isCmdStr cmd "trigger_screen_capture" then
    -- lines 731-737
    match ext.captureResult with
    | (some s, err) =>
      if s = "" then .ok ("error", some (pyOrS err "Failed to capture screen"), [], st)
      else .ok ("success", none, [("imageData", .str s), ("format", .str "png")], st)
    | (none, err) => .ok ("error", some (pyOrS err "Failed to capture screen"), [], st)
  else if isCmdStr cmd "simulate_keystrokes" then
    -- lines 739-757
    let textJ : Json :=
      match payload with
      | .obj fs => dictGet fs "text"
      | .str s => .str s
      | _ => .null
    if pyTruthy textJ then
      let r := simulate_keystrokes_applescript ext textJ
      if r.1 then .ok ("success", none, [("message", .str "Keystrokes simulated.")], st)
      else .ok ("error", some (pyOrS r.2 "Failed to simulate keystrokes"), [], st)
    else .ok ("error", some "Missing \x27text\x27 in payload for simulate_keystrokes", [], st)
  else if isCmdStr cmd "get_focused_input_text" then
    -- lines 759-776 (the locally built `response` at 773-776 is never sent)
    if !ext.axEnabled then
      .ok ("error", some "Accessibility features are not enabled on the hook.",
           [("focusedText", .null)], st)
    else
      match ext.focusedResult with
      | (textO, some e) =>
        if e = "" then .ok ("success", none, [("focusedText", optStrJson textO)], st)
        else .ok ("error", some e, [("focusedText", .null), ("error_message", .str e)], st)
      | (textO, none) => .ok ("success", none, [("focusedText", optStrJson textO)], st)
  else if isCmdStr cmd "type_in_target_input" then
    -- lines 778-829 (the locally built `response` at 826-829 is never sent)
    let textJ : Json := match payload with | .obj fs => dictGet fs "text" | _ => .null
    let bundleJ : Json := match payload with | .obj fs => dictGet fs "target_app_bundle_id" | _ => .null
    if !(ext.axEnabled && ext.appkitLoaded) then
      .ok ("error", some "Accessibility or AppKit features are not available on the hook for targeted input.", [], st)
    else if !(pyTruthy textJ) then
      .ok ("error", some "Missing \x27text\x27 in payload for type_in_target_input", [], st)
    else
      let act : Bool × Option String :=
        if pyTruthy bundleJ then
          match ext.activateOutcome with
          | .activated => (true, none)
          | .activateFailed => (false, some ("Failed to activate application: " ++ pyFStr bundleJ))
          | .notFound => (false, some ("Application with bundle ID " ++ pyFStr bundleJ ++ " not found or not running."))
          | .exnA m => (false, some ("Error activating target application " ++ pyFStr bundleJ ++ ": " ++ m))
        else (true, none)
      if act.1 && act.2.isNone then
        let r := simulate_keystrokes_applescript ext textJ
        if r.1 then
          .ok ("success", none,
            [("message", .str ("Text typed into " ++ (if pyTruthy bundleJ then pyFStr bundleJ else "current focus")
              ++ ": " ++ strTake 30 (pyFStr textJ) ++ "..."))], st)
        else
          .ok ("error", some (pyOrS r.2 ("Failed to simulate keystrokes in "
            ++ (if pyTruthy bundleJ then pyFStr bundleJ else "current focus") ++ ".")), [], st)
      else if act.2.isNone then
        .ok ("error", some "App activation step failed without specific error before typing.", [], st)
      else
        .ok ("error", act.2, [], st)
  else if isCmdStr cmd "click_button_in_target" then
    match clickButtonBranch ext payload with
    | .ok r => .ok (r.1, r.2.1, r.2.2, st)
    | .error e => .error e
  else if isCmdStr cmd "execute_shell_command" then
    -- lines 990-1006
    match pyGet payload "command" with
    | .error e => .error e
    | .ok sc =>
      if pyTruthy sc then
        let r := execute_shell_command_sync ext sc st
        let rdata := [("success", Json.bool r.1.1), ("stdout", r.1.2.1),
                      ("stderr", r.1.2.2.1), ("error_message", optStrJson r.1.2.2.2)]
        if r.1.1 then .ok ("success", none, rdata, r.2)
        else .ok ("error", some (pyOrS r.1.2.2.2 "Shell command failed"), rdata, r.2)
      else .ok ("error", some "No command provided in payload", [], st)
  else if isCmdStr cmd "move_mouse" then
    -- lines 1008-1024
    if ext.macosEnabled then do
      let x ← pyGet payload "x"
      let y ← pyGet payload "y"
      if !(jIsNull x) && !(jIsNull y) then
        if ext.moveMouseResult.1 then pure ("success", none, [("x", x), ("y", y)], st)
        else pure ("error", ext.moveMouseResult.2, [], st)
      else pure ("error", some "Missing x or y in payload", [], st)
    else .ok ("error", some "macOS features are disabled on the hook", [], st)
  else if isCmdStr cmd "mouse_click" then
    -- lines 1026-1044
    if ext.macosEnabled then do
      let x ← pyGet payload "x"
      let y ← pyGet payload "y"
      let button ← pyGetD payload "button" (.str "left")
      let clickType ← pyGetD payload "click_type" (.str "click")
      if !(jIsNull x) && !(jIsNull y) then
        let r := perform_mouse_click ext button clickType
        if r.1 then
          pure ("success", none,
            [("x", x), ("y", y), ("button", button), ("click_type", clickType)], st)
        else pure ("error", r.2, [], st)
      else pure ("error", some "Missing x or y in payload for mouse_click", [], st)
    else .ok ("error", some "macOS features are disabled on the hook", [], st)
  else if isCmdStr cmd "start_fs_monitoring" then
    -- lines 1046-1118
    let r := startBranch ext st payload
    .ok (r.2.1, r.2.2.1, r.2.2.2, r.1)
  else if isCmdStr cmd "stop_fs_monitoring" then
    -- lines 1120-1169 (this branch never sets status or error_msg)
    let r := stopBranch st payload
    .ok ("success", none, r.2, r.1)
  else if isCmdStr cmd "terminal_run_in_new_tab" then
    -- lines 1171-1188
    if ext.macosEnabled then do
      let cmdJ ← pyGet payload "command"
      let tabNameJ ← pyGet payload "tab_name"
      let activateJ ← pyGetD payload "activate_terminal" (.bool true)
      match cmdJ with
      | .str c =>
        if c = "" then
          pure ("error", some "Missing or invalid \x27command\x27 (string) in payload.", [], st)
        else
          match run_command_in_new_terminal_tab ext c tabNameJ activateJ st with
          | .ok rr =>
            if rr.1.1 then
              pure ("success", none,
                [("message", .str "Command sent to new terminal tab."),
                 ("details", optStrJson rr.1.2)], rr.2)
            else
              pure ("error", some (pyOrS rr.1.2 "Failed to run command in new terminal tab."), [], rr.2)
          | .error e => Except.error e
      | _ => pure ("error", some "Missing or invalid \x27command\x27 (string) in payload.", [], st)
    else .ok ("error", some "macOS features are disabled on the hook", [], st)
  else if isCmdStr cmd "get_hook_context_history" then
    -- lines 1190-1202: a read-only snapshot of the three deques
    .ok ("success", none,
      [("active_app_history", formatHistory st.active_app_history),
       ("file_event_history", formatHistory st.file_event_history),
       ("hook_executed_command_history", formatHistory st.hook_executed_command_history)], st)
  else if isCmdStr cmd "quit_application" then
    -- lines 1204-1222
    if ext.appkitLoaded then do
      let bundleJ ← pyGet payload "bundle_id"
      let appNameJ ← pyGetD payload "app_name" (.str "(Unknown App)")
      if pyTruthy bundleJ then
        match quit_application_applescript ext bundleJ st with
        | .ok rr =>
          if rr.1.1 then
            pure ("success", none,
              [("message", .str ("Quit command sent to \x27" ++ pyFStr appNameJ
                ++ "\x27 (ID: " ++ pyFStr bundleJ ++ ")."))], rr.2)
          else
            pure ("error", some (pyOrS rr.1.2 ("Failed to quit application \x27" ++ pyFStr appNameJ
              ++ "\x27 (ID: " ++ pyFStr bundleJ ++ ").")), [], rr.2)
        | .error e => Except.error e
      else pure ("error", some "Missing \x27bundle_id\x27 in payload for quit_application.", [], st)
    else .ok ("error", some "macOS features (AppKit check implies general macOS operations) are disabled on the hook.", [], st)
  else
    -- lines 1224-1227
    .ok ("error", some ("Unknown command: " ++ pyFStr cmd), [], st)

/-- An inbound frame: unparseable text, or a parsed JSON object (a
syntactically valid frame that is not an object is not a command envelope;
on such input even the `except` handler at line 1248 raises, so no response
is produced and the claims do not cover it). -/
inductive Inbound : Type where
  | badJson : Inbound
  | parsed (data : List (String × Json)) : Inbound

/-- Model of `handle_message` (lines 693-1251): `ping` answers inline and returns
(lines 710-720); every other command, known or not, flows to the centralized
response builder (lines 1229-1238), which always sends exactly one
`create_response` envelope; `json.JSONDecodeError` and any exception raised
out of a branch produce exactly one `create_error_response` envelope
(lines 1240-1251), echoing the id when the key is present and synthesizing
one otherwise.  The returned list holds the envelopes sent on the
originating connection (transport failures of the send itself are outside
the model). -/
def handleMessage (ext : Ext) (st : HookState) (inb : Inbound) : HookState × List Response :=
  match inb with
  | .badJson =>
    (st, [create_error_response (.str ("error_" ++ ext.uuid)) (.str "unknown") (.obj [])
           "Invalid JSON format"])
  | .parsed data =>
    let cmd := dictGet data "command"
    let payload := dictGet data "payload"
    let mid := dictGet data "id"
    if isCmdStr cmd "ping" then
      (st, [pongResponse mid cmd payload])
    else
      match runBranch ext st cmd payload with
      | .ok r =>
        (r.2.2.2, [create_response mid cmd payload r.1 (.obj (centralAugment r.1 r.2.1 r.2.2.1))])
      | .error e =>
        (st, [create_error_response ((lookupKey data "id").getD (.str ("error_" ++ ext.uuid)))
               ((lookupKey data "command").getD (.str "unknown"))
               ((lookupKey data "payload").getD (.obj [])) e])

/-- A sequence of parsed envelopes handled in arrival order, each with its
own oracle; the response lists are concatenated in order. -/
def handleAllParsed : List (Ext × List (String × Json)) → HookState → HookState × List Response
  | [], st => (st, [])
  | em :: rest, st =>
    let r1 := handleMessage em.1 st (.parsed em.2)
    let r2 := handleAllParsed rest r1.1
    (r2.1, r1.2 ++ r2.2)

/-- A concrete oracle for witness evaluations. -/
def ext0 : Ext :=
  { appkitLoaded := true
    axEnabled := true
    macosEnabled := true
    now := 0
    uuid := "u0"
    activeAppInfo := [("application_name", .str "App")]
    captureResult := (some "img", none)
    keystrokesResult := (true, none)
    focusedResult := (some "txt", none)
    activateOutcome := .activated
    clickAppElem := .noSystemWide
    clickEnabled := (0, .bool true)
    clickPress := 0
    shellOutcome := .completed 0 "" ""
    moveMouseResult := (true, none)
    mouseClickResult := (true, none)
    pathExists := fun _ => true
    scheduleFails := fun _ => false
    scheduleErrMsg := fun _ => "schedule error"
    observerStartOk := true
    observerStartErr := "observer thread failed"
    terminalScriptResult := (true, none)
    quitOutcome := .succeeded }

/-- The freshly started server state (all globals empty). -/
def st0 : HookState :=
  { active_app_history := []
    file_event_history := []
    hook_executed_command_history := []
    connected_clients := []
    observer := .noObs
    monitored_paths_details := [] }

-- ============================================================
-- Theorems
-- ============================================================

theorem lookupKey_append_isSome (l : List (String × Json)) (k : String) (v : Json) :
    (lookupKey (l ++ [(k, v)]) k).isSome = true := by
  induction l with
  | nil => simp [lookupKey]
  | cons kv rest ih =>
    rw [List.cons_append, lookupKey]
    by_cases hk : kv.1 = k
    · simp [hk]
    · simp [hk, ih]

theorem handleMessage_parsed_length (ext : Ext) (st : HookState) (data : List (String × Json)) :
    ((handleMessage ext st (.parsed data)).2).length = 1 := by
  rw [handleMessage]
  by_cases hping : isCmdStr (dictGet data "command") "ping" = true
  · rw [if_pos hping]
    rfl
  · rw [Bool.not_eq_true] at hping
    simp only [hping, Bool.false_eq_true, if_false]
    cases hr : runBranch ext st (dictGet data "command") (dictGet data "payload") with
    | ok r => rfl
    | error e => rfl

theorem handleMessage_parsed_id_present (ext : Ext) (st : HookState)
    (data : List (String × Json)) (v : Json) (hv : lookupKey data "id" = some v) :
    ((handleMessage ext st (.parsed data)).2).map Response.id = [v] := by
  rw [handleMessage]
  by_cases hping : isCmdStr (dictGet data "command") "ping" = true
  · rw [if_pos hping]
    simp [pongResponse, dictGet, hv]
  · rw [Bool.not_eq_true] at hping
    simp only [hping, Bool.false_eq_true, if_false]
    cases hr : runBranch ext st (dictGet data "command") (dictGet data "payload") with
    | ok r => simp [create_response, dictGet, hv]
    | error e => simp [create_error_response, hv]

theorem handleMessage_parsed_id_absent (ext : Ext) (st : HookState)
    (data : List (String × Json)) (hv : lookupKey data "id" = none) :
    ((handleMessage ext st (.parsed data)).2).map Response.id = [Json.null] ∨
    ((handleMessage ext st (.parsed data)).2).map Response.id = [Json.str ("error_" ++ ext.uuid)] := by
  rw [handleMessage]
  by_cases hping : isCmdStr (dictGet data "command") "ping" = true
  · left
    rw [if_pos hping]
    simp [pongResponse, dictGet, hv]
  · rw [Bool.not_eq_true] at hping
    simp only [hping, Bool.false_eq_true, if_false]
    cases hr : runBranch ext st (dictGet data "command") (dictGet data "payload") with
    | ok r =>
      left
      simp [create_response, dictGet, hv]
    | error e =>
      right
      simp [create_error_response, hv]

theorem append_response_ne_pong (s : String) : s ++ "_response" ≠ "pong" := by
  intro h
  have hlen := congrArg String.length h
  rw [String.length_append] at hlen
  have h9 : ("_response" : String).length = 9 := rfl
  have h4 : ("pong" : String).length = 4 := rfl
  omega

theorem handleAllParsed_length_ids
    (ems : List (Ext × List (String × Json))) :
    ∀ st : HookState, (∀ em ∈ ems, (lookupKey em.2 "id").isSome) →
      ((handleAllParsed ems st).2).length = ems.length ∧
      ((handleAllParsed ems st).2).map Response.id
        = ems.map (fun em => dictGet em.2 "id") := by
  induction ems with
  | nil => exact fun st _ => ⟨rfl, rfl⟩
  | cons em rest ih =>
    intro st h
    have h1 : (lookupKey em.2 "id").isSome := h em (List.mem_cons_self _ _)
    obtain ⟨v, hv⟩ := Option.isSome_iff_exists.mp h1
    have hmap1 := handleMessage_parsed_id_present em.1 st em.2 v hv
    have hlen1 := handleMessage_parsed_length em.1 st em.2
    have ih' := ih ((handleMessage em.1 st (.parsed em.2)).1)
      (fun e he => h e (List.mem_cons_of_mem _ he))
    rw [handleAllParsed]
    constructor
    · simp only [List.length_append, hlen1, ih'.1, List.length_cons]
      omega
    · simp only [List.map_append, hmap1, ih'.2, List.map_cons]
      have hdg : dictGet em.2 "id" = v := by simp [dictGet, hv]
      rw [hdg]
      rfl

/-- C1: every well-formed command envelope (a parsed JSON object), whatever
its command name, makes `handle_message` emit exactly one response envelope
on the originating connection; over a sequence of N such envelopes whose
`id` key is present, the N response ids are exactly the N request ids in
order (hence a bijection whenever the request ids are distinct), and `ping`
is the sole command answered with a `"pong"`-typed envelope — every other
command yields a `<command>_response`-typed envelope, never `"pong"`. -/
theorem router_one_response_per_request
    (ems : List (Ext × List (String × Json))) (st : HookState)
    (hids : ∀ em ∈ ems, (lookupKey em.2 "id").isSome) :
    ((handleAllParsed ems st).2).length = ems.length ∧
    ((handleAllParsed ems st).2).map Response.id
      = ems.map (fun em => dictGet em.2 "id") ∧
    (∀ (ext' : Ext) (st' : HookState) (data : List (String × Json)),
      ((handleMessage ext' st' (.parsed data)).2).length = 1 ∧
      (isCmdStr (dictGet data "command") "ping" = true →
        ((handleMessage ext' st' (.parsed data)).2).map Response.rtype = ["pong"]) ∧
      (isCmdStr (dictGet data "command") "ping" = false →
        ((handleMessage ext' st' (.parsed data)).2).map Response.rtype ≠ ["pong"])) := by
  refine ⟨(handleAllParsed_length_ids ems st hids).1,
          (handleAllParsed_length_ids ems st hids).2, ?_⟩
  intro ext' st' data
  refine ⟨handleMessage_parsed_length ext' st' data, ?_, ?_⟩
  · intro hping
    rw [handleMessage, if_pos hping]
    rfl
  · intro hping
    rw [handleMessage]
    simp only [hping, Bool.false_eq_true, if_false]
    cases hr : runBranch ext' st' (dictGet data "command") (dictGet data "payload") with
    | ok r =>
      intro hcontra
      simp only [List.map_cons, List.map_nil, List.cons.injEq, and_true,
        create_response] at hcontra
      exact append_response_ne_pong _ hcontra
    | error e =>
      intro hcontra
      simp only [List.map_cons, List.map_nil, List.cons.injEq, and_true,
        create_error_response] at hcontra
      exact append_response_ne_pong _ hcontra

/-- Witness for C1: two envelopes with ids `"a"` and `"b"` (a `ping` and an
unknown command) produce exactly two responses carrying ids `"a"` and `"b"`. -/
theorem router_one_response_per_request_witness :
    ((handleAllParsed [(ext0, [("id", Json.str "a"), ("command", Json.str "ping")]),
                       (ext0, [("id", Json.str "b"), ("command", Json.str "bogus")])] st0).2).map Response.id
      = [Json.str "a", Json.str "b"] := by
  have h := (router_one_response_per_request
    [(ext0, [("id", Json.str "a"), ("command", Json.str "ping")]),
     (ext0, [("id", Json.str "b"), ("command", Json.str "bogus")])] st0
    (by
      intro em hm
      simp only [List.mem_cons, List.not_mem_nil, or_false] at hm
      rcases hm with rfl | rfl
      · rfl
      · rfl)).2.1
  exact h

/-- C8 counterexample: an envelope with NO `id` key (`{"command": "ping"}` or
any normally handled command) is answered with an envelope whose `id` is
`null` — the server does not synthesize an id on this path, contradicting
the claim that no response is emitted with an absent or null id. -/
theorem response_id_no_synthesis_counterexample :
    ((handleMessage ext0 st0 (.parsed [("command", Json.str "ping")])).2).map Response.id
      = [Json.null] ∧
    ((handleMessage ext0 st0 (.parsed [("command", Json.str "get_hook_context_history")])).2).map Response.id
      = [Json.null] := ⟨rfl, rfl⟩

/-- C8 (amended): the response id is the request id echoed verbatim whenever
the `id` key is present (on every path, including the exception path, which
uses `data.get("id", <synthesized>)`); when the key is absent the response id
is `null` for normally completed commands, and a synthesized
`error_<uuid>` id appears only on the parse-failure/handler-exception
responses. -/
theorem response_id_echo_amended (ext : Ext) (st : HookState) (data : List (String × Json)) :
    (∀ v : Json, lookupKey data "id" = some v →
      ((handleMessage ext st (.parsed data)).2).map Response.id = [v]) ∧
    (lookupKey data "id" = none →
      ((handleMessage ext st (.parsed data)).2).map Response.id = [Json.null] ∨
      ((handleMessage ext st (.parsed data)).2).map Response.id
        = [Json.str ("error_" ++ ext.uuid)]) := by
  exact ⟨fun v hv => handleMessage_parsed_id_present ext st data v hv,
         fun hv => handleMessage_parsed_id_absent ext st data hv⟩

/-- Witness for C8 (amended): an envelope with id `"7"` is answered with id
`"7"`. -/
theorem response_id_echo_amended_witness :
    ((handleMessage ext0 st0
        (.parsed [("id", Json.str "7"), ("command", Json.str "ping")])).2).map Response.id
      = [Json.str "7"] :=
  (response_id_echo_amended ext0 st0
    [("id", Json.str "7"), ("command", Json.str "ping")]).1 (Json.str "7") rfl

theorem dequePush10_length_le (dq : List HistItem) (x : HistItem)
    (h : dq.length ≤ 10) : (dequePush10 dq x).length ≤ 10 := by
  unfold dequePush10 MAX_HISTORY_ITEMS
  split
  · simp; omega
  · rcases dq with _ | ⟨a, dq'⟩
    · simp
    · simp at h ⊢; omega

theorem dequePush10_foldl (items : List HistItem) :
    ∀ (dq : List HistItem), dq.length ≤ 10 →
      List.foldl dequePush10 dq items
        = (dq ++ items).drop ((dq ++ items).length - 10) := by
  induction items with
  | nil =>
    intro dq h
    simp [Nat.sub_eq_zero_of_le h]
  | cons x rest ih =>
    intro dq h
    have hstep : List.foldl dequePush10 dq (x :: rest)
        = List.foldl dequePush10 (dequePush10 dq x) rest := rfl
    rw [hstep]
    by_cases hlt : dq.length < 10
    · have hpush : dequePush10 dq x = dq ++ [x] := by
        simp [dequePush10, MAX_HISTORY_ITEMS, hlt]
      rw [hpush, ih (dq ++ [x]) (by simp; omega)]
      simp [List.append_assoc]
    · have hlen : dq.length = 10 := by omega
      have hpush : dequePush10 dq x = dq.tail ++ [x] := by
        simp [dequePush10, MAX_HISTORY_ITEMS, hlt]
      rcases dq with _ | ⟨a, dq'⟩
      · simp at hlen
      · have hlen' : dq'.length = 9 := by simpa using hlen
        rw [hpush, ih ((a :: dq').tail ++ [x]) (by simp; omega)]
        have hL : ((a :: dq').tail ++ [x]) ++ rest = dq' ++ x :: rest := by simp
        have hR : (a :: dq') ++ x :: rest = a :: (dq' ++ x :: rest) := by simp
        rw [hL, hR]
        have hidx1 : (dq' ++ x :: rest).length - 10 = rest.length := by
          simp only [List.length_append, List.length_cons, hlen']
          omega
        have hidx2 : (a :: (dq' ++ x :: rest)).length - 10 = rest.length + 1 := by
          simp only [List.length_cons, List.length_append, hlen']
          omega
        rw [hidx1, hidx2, List.drop_succ_cons]

theorem findAxList_eq_findSome (idText : String) (tRole : Option String)
    (cs : List (Option AXElem)) :
    findAxList idText tRole cs
      = cs.findSome? (fun oc => oc.bind (findAx idText tRole)) := by
  induction cs with
  | nil => simp [findAxList]
  | cons c rest ih =>
    cases c with
    | none => simp [findAxList, List.findSome?_cons, Option.bind, ih]
    | some ce =>
      rw [findAxList]
      cases h : findAx idText tRole ce with
      | some f => simp [List.findSome?_cons, Option.bind, h]
      | none => simp [List.findSome?_cons, Option.bind, h, ih]

mutual

theorem findAx_sound (idText : String) (tRole : Option String) :
    ∀ (t e : AXElem), findAx idText tRole t = some e →
      matchesSelfOf idText tRole e = true
  | AXElem.node role title desc children, e, h => by
    rw [findAx] at h
    by_cases hm : axSelfMatches idText tRole role title desc = true
    · rw [if_pos hm] at h
      cases h
      simpa [matchesSelfOf] using hm
    · rw [if_neg hm] at h
      exact findAxList_sound idText tRole children e h

theorem findAxList_sound (idText : String) (tRole : Option String) :
    ∀ (cs : List (Option AXElem)) (e : AXElem), findAxList idText tRole cs = some e →
      matchesSelfOf idText tRole e = true
  | [], e, h => by rw [findAxList] at h; cases h
  | none :: rest, e, h => by
    rw [findAxList] at h
    exact findAxList_sound idText tRole rest e h
  | some c :: rest, e, h => by
    rw [findAxList] at h
    cases hf : findAx idText tRole c with
    | some f =>
      rw [hf] at h
      cases h
      exact findAx_sound idText tRole c e hf
    | none =>
      rw [hf] at h
      exact findAxList_sound idText tRole rest e h

end

/-- C4: the accessibility search is a pre-order depth-first traversal.  If the
node itself satisfies the match predicate (role gate plus title/description
containment), it is returned at once — the children expression is never
consulted, so a matching ancestor always wins over any matching descendant.
Otherwise the result is exactly the first successful result over the children
in their natural index order (`List.findSome?` short-circuits at the first
`some`). -/
theorem find_ax_preorder_first_match (idText : String) (tRole : Option String)
    (role title desc : Option String) (children : List (Option AXElem)) :
    findAx idText tRole (AXElem.node role title desc children)
      = (if axSelfMatches idText tRole role title desc then
          some (AXElem.node role title desc children)
         else
          children.findSome? (fun oc => oc.bind (findAx idText tRole))) := by
  rw [findAx, findAxList_eq_findSome]

/-- C5: with a non-empty `target_role` filter, any element returned by the
search has exactly that role — an element whose role read differs (or fails)
is never returned even when its title or description contains the identifier
text — and such a role-blocked node is still traversed into: the search on it
equals the search over its child list. -/
theorem find_ax_role_filter (idText : String) (r : String) (hr : r ≠ "") :
    (∀ (t e : AXElem), findAx idText (some r) t = some e → elemRole e = some r) ∧
    (∀ (role title desc : Option String) (children : List (Option AXElem)),
      role ≠ some r →
        findAx idText (some r) (AXElem.node role title desc children)
          = findAxList idText (some r) children) := by
  constructor
  · intro t e h
    have hm := findAx_sound idText (some r) t e h
    cases e with
    | node role title desc children =>
      simp only [matchesSelfOf, axSelfMatches] at hm
      by_cases hb : roleGateBlocks (some r) role = true
      · rw [if_pos hb] at hm; cases hm
      · simp only [elemRole]
        cases role with
        | none => simp [roleGateBlocks, hr] at hb
        | some rv =>
          simp only [roleGateBlocks, if_neg hr] at hb
          by_cases hrv : rv = r
          · rw [hrv]
          · rw [if_neg hrv] at hb; simp at hb
  · intro role title desc children hrole
    rw [findAx]
    have hb : roleGateBlocks (some r) role = true := by
      cases role with
      | none => simp [roleGateBlocks, hr]
      | some rv =>
        have hrv : rv ≠ r := by
          intro hc; exact hrole (by rw [hc])
        simp [roleGateBlocks, hr, hrv]
    rw [axSelfMatches, if_pos hb, if_neg (by simp)]

theorem send_event_props (ext : Ext) (st : HookState) (etype src : String)
    (dest : Option String) (isDir : Bool) (hclients : st.connected_clients ≠ []) :
    ((send_event_to_clients ext st etype src dest isDir).1).map Prod.fst
      = st.connected_clients ∧
    (∀ b ∈ (send_event_to_clients ext st etype src dest isDir).1,
      jObjGet b.2 "type" = some (.str "file_system_event") ∧
      jObjGet b.2 "status" = some (.str "success") ∧
      (∃ p, jObjGet b.2 "payload" = some p ∧
        jObjGet p "event_type" = some (.str etype) ∧
        jObjGet p "src_path" = some (.str src))) ∧
    (∃ entry, (send_event_to_clients ext st etype src dest isDir).2.file_event_history
        = dequePush10 st.file_event_history (entry, ext.now) ∧
      jObjGet entry "event_type" = some (.str etype) ∧
      jObjGet entry "src_path" = some (.str src)) ∧
    (send_event_to_clients ext st etype src dest isDir).2.connected_clients
      = st.connected_clients := by
  have hne : st.connected_clients.isEmpty = false := by
    cases hcl : st.connected_clients with
    | nil => exact absurd hcl hclients
    | cons a l => rfl
  have hmapfst : ∀ (l : List Client) (m : Json), (l.map (fun c => (c, m))).map Prod.fst = l := by
    intro l m
    induction l with
    | nil => rfl
    | cons a t ih => simp [ih]
  rw [send_event_to_clients]
  simp only [hne, Bool.false_eq_true, if_false]
  refine ⟨hmapfst _ _, ?_, ?_, ?_⟩
  · intro b hb
    rw [List.mem_map] at hb
    obtain ⟨c, _hc, hbc⟩ := hb
    subst hbc
    exact ⟨rfl, rfl, ⟨_, rfl, rfl, rfl⟩⟩
  · exact ⟨_, rfl, rfl, rfl⟩
  · trivial

/-- C2 counterexample: a `modified` event on a directory is detected by the
watcher (`on_modified` fires) while two clients are registered, yet the code
neither inserts it into `file_event_history` nor broadcasts anything
(lines 301-304 skip directory `modified` events entirely), refuting the
claim that every detected event produces both. -/
theorem fs_event_dir_modified_counterexample :
    fsDispatch ext0 { st0 with connected_clients := [1, 2] }
        ⟨FsEventKind.modified, "/watched/dir", none, true⟩
      = ([], { st0 with connected_clients := [1, 2] }) := rfl

/-- C2 (amended): a `created`, `deleted` or `moved` event, or a `modified`
event on a non-directory, produces — provided at least one client is
registered — exactly one `file_event_history` insertion and one broadcast
envelope of type `"file_system_event"` with status `"success"` and matching
`event_type`/`src_path` addressed to every currently registered connection
(delivery per connection is best effort).  Directory `modified` events, and
any event arriving while no client is registered, produce neither the
broadcast nor the history insertion. -/
theorem fs_event_broadcast_and_history_amended
    (ext : Ext) (st : HookState) (ev : FsEvent)
    (hclients : st.connected_clients ≠ [])
    (hkind : ev.kind ≠ FsEventKind.modified ∨ ev.isDir = false) :
    ((fsDispatch ext st ev).1).map Prod.fst = st.connected_clients ∧
    (∀ b ∈ (fsDispatch ext st ev).1,
      jObjGet b.2 "type" = some (.str "file_system_event") ∧
      jObjGet b.2 "status" = some (.str "success") ∧
      (∃ p, jObjGet b.2 "payload" = some p ∧
        jObjGet p "event_type" = some (.str (eventTypeName ev.kind)) ∧
        jObjGet p "src_path" = some (.str ev.src))) ∧
    (∃ entry, (fsDispatch ext st ev).2.file_event_history
        = dequePush10 st.file_event_history (entry, ext.now) ∧
      jObjGet entry "event_type" = some (.str (eventTypeName ev.kind)) ∧
      jObjGet entry "src_path" = some (.str ev.src)) ∧
    (fsDispatch ext st ev).2.connected_clients = st.connected_clients := by
  rcases ev with ⟨kind, src, dest, isDir⟩
  cases kind with
  | created =>
    simpa [fsDispatch, eventTypeName] using
      send_event_props ext st "created" src none isDir hclients
  | deleted =>
    simpa [fsDispatch, eventTypeName] using
      send_event_props ext st "deleted" src none isDir hclients
  | modified =>
    have hdir : isDir = false := by
      rcases hkind with h | h
      · exact absurd rfl h
      · exact h
    subst hdir
    simpa [fsDispatch, eventTypeName] using
      send_event_props ext st "modified" src none false hclients
  | moved =>
    simpa [fsDispatch, eventTypeName] using
      send_event_props ext st "moved" src dest isDir hclients

/-- Witness for C2 (amended): a file-creation event with two registered
clients is broadcast to both of them. -/
theorem fs_event_broadcast_and_history_amended_witness :
    ((fsDispatch ext0 { st0 with connected_clients := [1, 2] }
        ⟨FsEventKind.created, "/tmp/x/f", none, false⟩).1).map Prod.fst = [1, 2] :=
  (fs_event_broadcast_and_history_amended ext0
    { st0 with connected_clients := [1, 2] }
    ⟨FsEventKind.created, "/tmp/x/f", none, false⟩
    (by simp) (Or.inr rfl)).1

/-- C3: each history ring holds at most 10 entries: folding K > 10
insertions into an empty ring leaves exactly the 10 most recently inserted
`(record, timestamp)` pairs, in insertion order with the oldest evicted
first; and the `get_hook_context_history` command returns the three rings
oldest-first without mutating any state. -/
theorem history_ring_capacity_ten (items : List HistItem) (h : 10 < items.length) :
    List.foldl dequePush10 [] items = items.drop (items.length - 10) ∧
    (List.foldl dequePush10 [] items).length = 10 ∧
    (∀ (ext : Ext) (st : HookState) (mid : Json),
      (handleMessage ext st
        (.parsed [("id", mid), ("command", .str "get_hook_context_history")])).1 = st ∧
      ((handleMessage ext st
        (.parsed [("id", mid), ("command", .str "get_hook_context_history")])).2).map Response.payload
        = [some (Json.obj
            [("active_app_history", formatHistory st.active_app_history),
             ("file_event_history", formatHistory st.file_event_history),
             ("hook_executed_command_history", formatHistory st.hook_executed_command_history)])]) := by
  have h1 : List.foldl dequePush10 [] items = items.drop (items.length - 10) := by
    simpa using dequePush10_foldl items [] (by simp)
  refine ⟨h1, ?_, ?_⟩
  · rw [h1, List.length_drop]
    omega
  · intro ext st mid
    exact ⟨rfl, rfl⟩

/-- Witness for C3: after 11 insertions the first record is gone and the
last 10 remain in order. -/
theorem history_ring_capacity_ten_witness :
    List.foldl dequePush10 []
      [(Json.num 0, 0), (Json.num 1, 1), (Json.num 2, 2), (Json.num 3, 3),
       (Json.num 4, 4), (Json.num 5, 5), (Json.num 6, 6), (Json.num 7, 7),
       (Json.num 8, 8), (Json.num 9, 9), (Json.num 10, 10)]
      = [(Json.num 1, 1), (Json.num 2, 2), (Json.num 3, 3),
         (Json.num 4, 4), (Json.num 5, 5), (Json.num 6, 6), (Json.num 7, 7),
         (Json.num 8, 8), (Json.num 9, 9), (Json.num 10, 10)] :=
  (history_ring_capacity_ten
    [(Json.num 0, 0), (Json.num 1, 1), (Json.num 2, 2), (Json.num 3, 3),
     (Json.num 4, 4), (Json.num 5, 5), (Json.num 6, 6), (Json.num 7, 7),
     (Json.num 8, 8), (Json.num 9, 9), (Json.num 10, 10)] (by decide)).1

/-- C10: `execute_shell_command_sync` appends exactly one
`(record, timestamp)` pair — the record holding `command_type "shell_sync"`
and the command value — to the executed-command history ring on every
outcome alike (exit code 0, non-zero exit, 30-second timeout, exception),
mirroring the `finally` block at lines 632-634, and touches no other ring. -/
theorem shell_history_always_appends (e : Ext) (cmdJ : Json) (st : HookState)
    (oc : ShellOutcome) :
    (execute_shell_command_sync { e with shellOutcome := oc } cmdJ st).2.hook_executed_command_history
      = dequePush10 st.hook_executed_command_history
          (Json.obj [("command_type", .str "shell_sync"), ("command", cmdJ)], e.now) ∧
    (execute_shell_command_sync { e with shellOutcome := oc } cmdJ st).2.active_app_history
      = st.active_app_history ∧
    (execute_shell_command_sync { e with shellOutcome := oc } cmdJ st).2.file_event_history
      = st.file_event_history :=
  ⟨rfl, rfl, rfl⟩

/-- C9 counterexample: the response to an unknown command has status
`"error"` but NO top-level `error_message` field — the error text is nested
inside the `payload` instead, because the centralized builder at
lines 1229-1237 always uses `create_response` — refuting the claimed
present-iff-error equivalence for top-level `error_message`. -/
theorem error_message_not_top_level_counterexample :
    ((handleMessage ext0 st0
        (.parsed [("id", Json.str "1"), ("command", Json.str "bogus_command")])).2).map Response.status
      = ["error"] ∧
    ((handleMessage ext0 st0
        (.parsed [("id", Json.str "1"), ("command", Json.str "bogus_command")])).2).map Response.error_message
      = [none] ∧
    ((handleMessage ext0 st0
        (.parsed [("id", Json.str "1"), ("command", Json.str "bogus_command")])).2).map Response.payload
      = [some (Json.obj [("error_message", Json.str "Unknown command: bogus_command")])] :=
  ⟨rfl, rfl, rfl⟩

/-- C9 (amended): every response to a parsed envelope either carries a
`payload` field and no top-level `error_message` (the `create_response`
shape used by the centralized builder for ALL command outcomes, success or
error, and by `pong`), or carries a top-level `error_message`, no `payload`,
and status `"error"` (the `create_error_response` shape, used only for
parse-failure and handler-exception responses); and whenever the
centralized builder runs with an error status and a truthy error message,
that message is placed INSIDE the response data (the eventual `payload`)
under the key `"error_message"`. -/
theorem response_error_shape_amended (ext : Ext) (st : HookState)
    (data : List (String × Json)) :
    (∀ r ∈ (handleMessage ext st (.parsed data)).2,
      (r.error_message = none → ∃ p, r.payload = some p) ∧
      (r.error_message ≠ none → r.payload = none ∧ r.status = "error")) ∧
    (∀ (status m : String) (rdata : List (String × Json)), m ≠ "" → status = "error" →
      (lookupKey (centralAugment status (some m) rdata) "error_message").isSome = true) := by
  constructor
  · intro r hr
    rw [handleMessage] at hr
    by_cases hping : isCmdStr (dictGet data "command") "ping" = true
    · rw [if_pos hping] at hr
      simp only [List.mem_singleton] at hr
      subst hr
      exact ⟨fun _ => ⟨_, rfl⟩, fun hcon => absurd rfl hcon⟩
    · rw [Bool.not_eq_true] at hping
      simp only [hping, Bool.false_eq_true, if_false] at hr
      cases hrb : runBranch ext st (dictGet data "command") (dictGet data "payload") with
      | ok rr =>
        rw [hrb] at hr
        simp only [List.mem_singleton] at hr
        subst hr
        exact ⟨fun _ => ⟨_, rfl⟩, fun hcon => absurd rfl hcon⟩
      | error e =>
        rw [hrb] at hr
        simp only [List.mem_singleton] at hr
        subst hr
        exact ⟨fun hcon => absurd hcon (by simp [create_error_response]),
               fun _ => ⟨rfl, rfl⟩⟩
  · intro status m rdata hm hstatus
    subst hstatus
    rw [centralAugment]
    simp only [if_pos rfl, hm, if_false]
    by_cases hk : (lookupKey rdata "error_message").isSome
    · simp [hk]
    · simp only [hk, if_false]
      exact lookupKey_append_isSome rdata "error_message" (.str m)

/-- Witness for C9 (amended): the unknown-command response has the
`create_response` shape (payload present), and the centralized builder nests
a truthy error message inside the data under `"error_message"`. -/
theorem response_error_shape_amended_witness :
    (∃ p, (create_response (Json.str "9") (Json.str "bogus2") Json.null "error"
      (Json.obj (centralAugment "error" (some "Unknown command: bogus2") []))).payload = some p) ∧
    (lookupKey (centralAugment "error" (some "boom") []) "error_message").isSome = true := by
  constructor
  · exact ((response_error_shape_amended ext0 st0
      [("id", Json.str "9"), ("command", Json.str "bogus2")]).1
      _ (List.Mem.head _)).1 rfl
  · exact (response_error_shape_amended ext0 st0 []).2 "error" "boom" []
      (by decide) rfl

/-- C6: with the watcher running, `stop_fs_monitoring` with any non-empty
path list and with no paths at all both stop the entire watcher (the handle
is discarded) and clear every registration; and no invocation of the branch
ever leaves a proper subset watched — the registration map afterwards is
either exactly what it was or empty. -/
theorem stop_fs_full_stop (st : HookState) (sched : List String)
    (halive : st.observer = ObserverSt.obs sched true) :
    (∀ ps : List Json, ps ≠ [] →
      (stopBranch st (.obj [("paths", .arr ps)])).1.observer = ObserverSt.noObs ∧
      (stopBranch st (.obj [("paths", .arr ps)])).1.monitored_paths_details = []) ∧
    ((stopBranch st (.obj [])).1.observer = ObserverSt.noObs ∧
     (stopBranch st (.obj [])).1.monitored_paths_details = []) ∧
    (∀ (st' : HookState) (payload : Json),
      ((stopBranch st' payload).1.observer = st'.observer ∧
       (stopBranch st' payload).1.monitored_paths_details = st'.monitored_paths_details) ∨
      ((stopBranch st' payload).1.observer = ObserverSt.noObs ∧
       (stopBranch st' payload).1.monitored_paths_details = [])) := by
  refine ⟨?_, ?_, ?_⟩
  · intro ps hps
    have hne : ps.isEmpty = false := by
      cases ps with
      | nil => exact absurd rfl hps
      | cons a l => rfl
    rw [stopBranch]
    simp [halive, dictGet, lookupKey, hne, stopAllWatches]
  · rw [stopBranch]
    simp [halive, dictGet, lookupKey, pyTruthy, stopAllWatches]
  · intro st' payload
    cases hobs : st'.observer with
    | noObs =>
      left
      simp [stopBranch, hobs]
    | obs s a =>
      cases a with
      | false =>
        right
        simp [stopBranch, hobs]
      | true =>
        cases payload with
        | obj fs =>
          cases hd : dictGet fs "paths" with
          | arr ps =>
            cases ps with
            | nil => right; simp [stopBranch, hobs, hd, stopAllWatches, pyTruthy]
            | cons a l => right; simp [stopBranch, hobs, hd, stopAllWatches, pyTruthy]
          | null => right; simp [stopBranch, hobs, hd, stopAllWatches, pyTruthy]
          | bool b =>
            cases b with
            | false => right; simp [stopBranch, hobs, hd, stopAllWatches, pyTruthy]
            | true => left; simp [stopBranch, hobs, hd, pyTruthy]
          | num n =>
            by_cases hn : n = 0
            · right; simp [stopBranch, hobs, hd, hn, stopAllWatches, pyTruthy]
            · left; simp [stopBranch, hobs, hd, hn, pyTruthy]
          | str t =>
            by_cases ht : t = ""
            · right; simp [stopBranch, hobs, hd, ht, stopAllWatches, pyTruthy]
            · left; simp [stopBranch, hobs, hd, ht, pyTruthy]
          | obj fs2 =>
            cases fs2 with
            | nil => right; simp [stopBranch, hobs, hd, stopAllWatches, pyTruthy]
            | cons kv rest => left; simp [stopBranch, hobs, hd, pyTruthy]
        | null => right; simp [stopBranch, hobs, stopAllWatches, pyTruthy]
        | bool b => right; simp [stopBranch, hobs, stopAllWatches, pyTruthy]
        | num n => right; simp [stopBranch, hobs, stopAllWatches, pyTruthy]
        | str t => right; simp [stopBranch, hobs, stopAllWatches, pyTruthy]
        | arr es => right; simp [stopBranch, hobs, stopAllWatches, pyTruthy]

/-- Witness for C6: with one watched path, stopping with a non-empty path
list clears all registrations, and stopping with no paths discards the
watcher handle. -/
theorem stop_fs_full_stop_witness :
    (stopBranch
        { st0 with observer := ObserverSt.obs ["/a"] true,
                   monitored_paths_details := [("/a", ⟨Json.bool true, Json.null⟩)] }
        (.obj [("paths", .arr [Json.str "/a"])])).1.monitored_paths_details = [] ∧
    (stopBranch
        { st0 with observer := ObserverSt.obs ["/a"] true,
                   monitored_paths_details := [("/a", ⟨Json.bool true, Json.null⟩)] }
        (.obj [])).1.observer = ObserverSt.noObs := by
  constructor
  · exact ((stop_fs_full_stop _ ["/a"] rfl).1 [Json.str "/a"] (by simp)).2
  · exact ((stop_fs_full_stop _ ["/a"] rfl).2.1).1

/-- C7 counterexample: starting monitoring of an existing path whose
`schedule` succeeds but whose observer thread fails to start reports an
error and discards the watcher handle (lines 1098-1103), yet the
registration entry added for the path by this very call REMAINS in
`monitored_paths_details` — the rollback the claim describes does not
happen. -/
theorem start_fs_rollback_counterexample :
    (startBranch { ext0 with observerStartOk := false } st0
        (.obj [("paths", .arr [Json.str "/w"])])).1.observer = ObserverSt.noObs ∧
    (startBranch { ext0 with observerStartOk := false } st0
        (.obj [("paths", .arr [Json.str "/w"])])).1.monitored_paths_details
      = [("/w", ⟨Json.bool true, Json.null⟩)] ∧
    (startBranch { ext0 with observerStartOk := false } st0
        (.obj [("paths", .arr [Json.str "/w"])])).2.1 = "error" :=
  ⟨rfl, rfl, rfl⟩

/-- C7 (amended): when the registration loop scheduled at least one new path
and the observer thread then fails to start, the manager discards the
watcher handle (back to no observer) and reports an error status — but the
per-path registration entries produced by the loop, including those added by
this failed call, all remain in `monitored_paths_details`; they are not
rolled back. -/
theorem start_fs_failure_keeps_registrations
    (ext : Ext) (st : HookState) (paths : List String) (recJ aliasJ : Json)
    (hobs : st.observer = ObserverSt.noObs)
    (hstarted : (startLoop ext recJ aliasJ paths [] st.monitored_paths_details [] false).startedAny = true)
    (hfail : ext.observerStartOk = false) :
    (startCore ext st paths recJ aliasJ).1.observer = ObserverSt.noObs ∧
    (startCore ext st paths recJ aliasJ).1.monitored_paths_details
      = (startLoop ext recJ aliasJ paths [] st.monitored_paths_details [] false).mon ∧
    (startCore ext st paths recJ aliasJ).2.1 = "error" := by
  rw [startCore]
  simp only [hobs]
  simp only [hstarted, hfail, Bool.not_false, Bool.and_self, if_true,
    Bool.false_eq_true, if_false]
  have hne : ((startLoop ext recJ aliasJ paths [] st.monitored_paths_details [] false).errors
      ++ ["Error starting observer: " ++ ext.observerStartErr]).isEmpty = false := by
    cases (startLoop ext recJ aliasJ paths [] st.monitored_paths_details [] false).errors with
    | nil => rfl
    | cons a l => rfl
  simp only [hne, Bool.not_false, if_true]
  refine ⟨?_, ?_, ?_⟩ <;> trivial

/-- Witness for C7 (amended): concrete failing start keeping its
registration. -/
theorem start_fs_failure_keeps_registrations_witness :
    (startCore { ext0 with observerStartOk := false } st0 ["/w2"] (Json.bool true) Json.null).1.observer
      = ObserverSt.noObs ∧
    (startCore { ext0 with observerStartOk := false } st0 ["/w2"] (Json.bool true) Json.null).2.1
      = "error" := by
  have h := start_fs_failure_keeps_registrations
    { ext0 with observerStartOk := false } st0 ["/w2"] (Json.bool true) Json.null
    rfl rfl rfl
  exact ⟨h.1, h.2.2⟩

/-- Witness for C5 on the documented scenario: searching for text "OK" with
`target_role = "AXButton"` in a window whose only text-matching element is a
static text (non-button) yields not-found, and a role-blocked node delegates
to its (empty) child list. -/
theorem find_ax_role_filter_witness :
    findAx "OK" (some "AXButton")
      (AXElem.node (some "AXWindow") (some "win") none
        [some (AXElem.node (some "AXButton") (some "Cancel") none []),
         some (AXElem.node (some "AXStaticText") (some "OK") none [])]) = none ∧
    findAx "OK" (some "AXButton")
        (AXElem.node (some "AXStaticText") (some "OK") none [])
      = findAxList "OK" (some "AXButton") [] := by
  refine ⟨?_, ?_⟩
  · rfl
  · exact (find_ax_role_filter "OK" "AXButton" (by decide)).2
      (some "AXStaticText") (some "OK") none [] (by decide)

end CTW
